import Mathlib

/-!
Verification of the pressure-fluctuation-index core of the
bitwalk-pressure-app repository.

The repository holds two nearly identical Streamlit scripts,
`bitwalk_pressure_ui_chat_20250622_v03.py` and
`bitwalk_pressure_ui_chat_20250623_v04.py`.  The only deterministic,
testable algorithm in either is `compute_bitwalk_index`, which receives a
pandas DataFrame with columns `time` and `pressure`, writes two derived
columns `diff` (absolute successive differences) and `dpdt` (signed
successive differences) into that DataFrame, and returns
`round((diff.max() + diff.mean()) / 2, 2)`.  The surrounding `main`
section classifies the returned index into three display tiers with
thresholds 0.5 and 1.5.

Embedding choices:
* A DataFrame is a structure holding the `time` column (integer
  timestamps), the `pressure` column (exact rationals standing for the
  float pressures), and the two derived columns as optional
  `List (Option ℚ)` values, where `Option.none` inside a column models a
  pandas `NaN` cell and a `none` column models the column being absent.
* `pandas.Series.diff` is modelled by `pandasDiff`: the first cell is
  `NaN`, every later cell is the difference with the previous value.
* `.max()` and `.mean()` are modelled by `colMax` / `colMean` with the
  pandas default `skipna=True`: `NaN` cells are dropped, and an
  all-`NaN` column yields `NaN` (`none`).
* Python `round(x, 2)` is modelled by `round2`, round-half-to-even at
  two decimal places over exact rationals.
* Since the Python function raises no exception on these inputs and
  returns the possibly-`NaN` float index while mutating its argument,
  the embedded `compute_bitwalk_index` totally returns the pair of the
  updated DataFrame and the optional index.
-/

/-- One pandas DataFrame as used by the scripts: the fetched `time` and
`pressure` columns plus the two derived columns that
`compute_bitwalk_index` assigns.  A derived column is `none` until the
corresponding assignment has happened; a `none` cell inside a column is
a pandas `NaN`. -/
structure DataFrame where
  time : List ℤ
  pressure : List ℚ
  diff : Option (List (Option ℚ))
  dpdt : Option (List (Option ℚ))
deriving DecidableEq, Repr

/-- Model of `pandas.Series.diff()` on the pressure column: a column of
the same length whose first cell is `NaN` and whose cell `i` (for
`i ≥ 1`) is `pressure[i] - pressure[i-1]`. -/
def pandasDiff : List ℚ → List (Option ℚ)
  | [] => []
  | p :: rest => none :: (List.zipWith (fun a b => some (b - a)) (p :: rest) rest)

/-- Model of `.abs()` applied cellwise to a column; `NaN` stays `NaN`. -/
def colAbs (c : List (Option ℚ)) : List (Option ℚ) :=
  c.map (Option.map (fun x => |x|))

/-- The non-`NaN` cells of a column, in order: the values that the
pandas `skipna=True` aggregations actually see. -/
def cells : List (Option ℚ) → List ℚ
  | [] => []
  | none :: r => cells r
  | some x :: r => x :: cells r

/-- Model of `pandas.Series.max()` with the default `skipna=True`:
the maximum of the non-`NaN` cells, or `NaN` when there is none. -/
def colMax (c : List (Option ℚ)) : Option ℚ :=
  match cells c with
  | [] => none
  | x :: xs => some (xs.foldl max x)

/-- Model of `pandas.Series.mean()` with the default `skipna=True`:
the arithmetic mean of the non-`NaN` cells, or `NaN` when there is none. -/
def colMean (c : List (Option ℚ)) : Option ℚ :=
  match cells c with
  | [] => none
  | x :: xs => some ((x :: xs).sum / (x :: xs).length)

/-- Round-half-to-even to the nearest integer, the tie convention of
Python `round` on an exact value. -/
def roundEven (q : ℚ) : ℤ :=
  if q - ⌊q⌋ < 1/2 then ⌊q⌋
  else if q - ⌊q⌋ > 1/2 then ⌊q⌋ + 1
  else if 2 ∣ ⌊q⌋ then ⌊q⌋ else ⌊q⌋ + 1

/-- Model of Python `round(x, 2)`: round-half-to-even at two decimal
places over exact rationals. -/
def round2 (q : ℚ) : ℚ :=
  (roundEven (q * 100) : ℚ) / 100

namespace V03

/-- Embedding of `compute_bitwalk_index` from
`bitwalk_pressure_ui_chat_20250622_v03.py` (lines 53–56):
assign `df['diff'] = df['pressure'].diff().abs()` and
`df['dpdt'] = df['pressure'].diff()` into the argument DataFrame, then
return `round((df['diff'].max() + df['diff'].mean()) / 2, 2)`.
The result is the pair of the mutated DataFrame and the returned index;
`none` as the index models the `NaN` float that Python returns when the
`diff` column has no non-`NaN` cell (the function raises no exception). -/
def compute_bitwalk_index (df : DataFrame) : DataFrame × Option ℚ :=
  ({ df with diff := some (colAbs (pandasDiff df.pressure)),
             dpdt := some (pandasDiff df.pressure) },
   match colMax (colAbs (pandasDiff df.pressure)),
         colMean (colAbs (pandasDiff df.pressure)) with
   | some m, some mu => some (round2 ((m + mu) / 2))
   | _, _ => none)

end V03

namespace V04

/-- Embedding of `compute_bitwalk_index` from
`bitwalk_pressure_ui_chat_20250623_v04.py` (lines 56–59), whose body is
line-for-line the same as the v03 one: assign the `diff` and `dpdt`
columns into the argument DataFrame and return
`round((df['diff'].max() + df['diff'].mean()) / 2, 2)`. -/
def compute_bitwalk_index (df : DataFrame) : DataFrame × Option ℚ :=
  ({ df with diff := some (colAbs (pandasDiff df.pressure)),
             dpdt := some (pandasDiff df.pressure) },
   match colMax (colAbs (pandasDiff df.pressure)),
         colMean (colAbs (pandasDiff df.pressure)) with
   | some m, some mu => some (round2 ((m + mu) / 2))
   | _, _ => none)

end V04

/-- The three display tiers of the spec; the source realizes them as the
three branches of the `if index < 0.5 / elif index < 1.5 / else`
classification in `main`. -/
inductive Tier where
  | STABLE
  | MODERATE
  | HIGH
deriving DecidableEq, Repr

/-- Embedding of the tier classification in `main`
(v03 lines 99–104, v04 lines 117–122):
`if index < 0.5` gives the stable message, `elif index < 1.5` the
moderate one, `else` the high one. -/
def classifyTier (index : ℚ) : Tier :=
  if index < 1/2 then Tier.STABLE
  else if index < 3/2 then Tier.MODERATE
  else Tier.HIGH

/-- The successive signed differences `pressure[i] - pressure[i-1]`
of a series, stated directly as in the spec. -/
def diffs (ps : List ℚ) : List ℚ :=
  List.zipWith (fun a b => b - a) ps ps.tail

/-- The successive absolute differences `d[i] = |pressure[i] - pressure[i-1]|`
of a series, stated directly as in the spec. -/
def absDiffs (ps : List ℚ) : List ℚ :=
  (diffs ps).map (fun x => |x|)

/-- Maximum of a difference list, `0` on the empty list (which is ruled
out whenever the series has at least two samples). -/
def maxD : List ℚ → ℚ
  | [] => 0
  | x :: xs => xs.foldl max x

/-- Arithmetic mean of a difference list. -/
def meanD (l : List ℚ) : ℚ :=
  l.sum / l.length

/-- The error taxonomy the spec prescribes for the calculator
(spec section 7); the source defines no such errors. -/
inductive ComputeError where
  | insufficientData
  | unorderedSeries
deriving DecidableEq, Repr

/-- The result record the spec prescribes: the scalar index with its
tier (spec section 3, FluctuationResult). -/
structure FluctuationResult where
  index : ℚ
  tier : Tier
deriving DecidableEq, Repr

/-- Boolean test that a timestamp column is non-decreasing, the
ordering invariant the spec puts on a PressureSeries. -/
def nonDecreasing : List ℤ → Bool
  | a :: b :: r => decide (a ≤ b) && nonDecreasing (b :: r)
  | _ => true

/-- The calculator exactly as the spec words it (spec sections 4.1 and
7), for comparison with the source embedding: reject a series of fewer
than two samples with `InsufficientDataError`, reject non-monotone
timestamps with `UnorderedSeriesError`, and otherwise return the
rounded index with its tier.  The source never raises either error. -/
def compute_spec (df : DataFrame) : Except ComputeError FluctuationResult :=
  if df.pressure.length < 2 then Except.error ComputeError.insufficientData
  else if nonDecreasing df.time = false then Except.error ComputeError.unorderedSeries
  else
    Except.ok
      { index := round2 ((maxD (absDiffs df.pressure) + meanD (absDiffs df.pressure)) / 2),
        tier := classifyTier (round2 ((maxD (absDiffs df.pressure) + meanD (absDiffs df.pressure)) / 2)) }

/-- Scale every successive difference of a series by `k` while keeping
the first sample fixed: the transformed series whose difference
sequence is exactly `k` times the original one (spec section 8,
monotonicity sanity property). -/
def scaleDiffs (k : ℚ) : List ℚ → List ℚ
  | [] => []
  | p :: rest => (p :: rest).map (fun q => p + k * (q - p))

/-! General lemmas connecting the pandas column pipeline to the direct
mathematical description of the difference statistics, and the
algebraic facts about maximum, mean, scaling and rounding that the
claims below rely on. -/
theorem cells_map_some (l : List ℚ) : cells (l.map some) = l := by
  induction l with
  | nil => rfl
  | cons x xs ih => simp [cells, ih]

theorem zipWith_some_sub (l l' : List ℚ) :
    List.zipWith (fun a b => some (b - a)) l l' =
      (List.zipWith (fun a b => b - a) l l').map some := by
  induction l generalizing l' with
  | nil => simp
  | cons x xs ih =>
    cases l' with
    | nil => simp
    | cons y ys => simp [ih]

theorem colAbs_map_some (l : List ℚ) :
    colAbs (l.map some) = (l.map (fun x => |x|)).map some := by
  simp [colAbs, List.map_map]

theorem cells_colAbs_pandasDiff (ps : List ℚ) :
    cells (colAbs (pandasDiff ps)) = absDiffs ps := by
  cases ps with
  | nil => rfl
  | cons p rest =>
    show cells (colAbs (none :: List.zipWith (fun a b => some (b - a)) (p :: rest) rest)) = _
    rw [zipWith_some_sub]
    show cells (Option.map (fun x => |x|) none :: colAbs ((List.zipWith (fun a b => b - a) (p :: rest) rest).map some)) = _
    rw [colAbs_map_some]
    show cells ((((List.zipWith (fun a b => b - a) (p :: rest) rest).map (fun x => |x|)).map some)) = _
    rw [cells_map_some]
    show (diffs (p :: rest)).map (fun x => |x|) = _
    rfl

theorem length_absDiffs (ps : List ℚ) : (absDiffs ps).length = ps.length - 1 := by
  cases ps <;> simp [absDiffs, diffs]


theorem compute_index_formula (df : DataFrame) (h2 : 2 ≤ df.pressure.length) :
    (V03.compute_bitwalk_index df).2
      = some (round2 ((maxD (absDiffs df.pressure) + meanD (absDiffs df.pressure)) / 2)) := by
  have hlen : 1 ≤ (absDiffs df.pressure).length := by
    rw [length_absDiffs]; omega
  obtain ⟨x, xs, hx⟩ : ∃ x xs, absDiffs df.pressure = x :: xs := by
    cases h : absDiffs df.pressure with
    | nil => rw [h] at hlen; simp at hlen
    | cons a l => exact ⟨a, l, rfl⟩
  simp only [V03.compute_bitwalk_index, colMax, colMean, cells_colAbs_pandasDiff, hx,
    maxD, meanD]


theorem le_foldl_max (xs : List ℚ) (a : ℚ) : a ≤ xs.foldl max a := by
  induction xs generalizing a with
  | nil => exact le_refl a
  | cons y ys ih => exact le_trans (le_max_left a y) (ih (max a y))

theorem maxD_nonneg (l : List ℚ) (h : ∀ x ∈ l, 0 ≤ x) : 0 ≤ maxD l := by
  cases l with
  | nil => exact le_refl 0
  | cons x xs =>
    exact le_trans (h x (List.mem_cons_self x xs)) (le_foldl_max xs x)

theorem foldl_max_zero (xs : List ℚ) (h : ∀ x ∈ xs, x = 0) : xs.foldl max 0 = 0 := by
  induction xs with
  | nil => rfl
  | cons y ys ih =>
    have hy : y = 0 := h y (List.mem_cons_self y ys)
    have := ih (fun x hx => h x (List.mem_cons_of_mem y hx))
    simp [List.foldl_cons, hy, this]

theorem maxD_zero (l : List ℚ) (h : ∀ x ∈ l, x = 0) : maxD l = 0 := by
  cases l with
  | nil => rfl
  | cons x xs =>
    have hx : x = 0 := h x (List.mem_cons_self x xs)
    have := foldl_max_zero xs (fun y hy => h y (List.mem_cons_of_mem x hy))
    simp [maxD, hx, this]

theorem foldl_max_smul (k : ℚ) (hk : 0 ≤ k) (xs : List ℚ) (a : ℚ) :
    (xs.map (fun x => k * x)).foldl max (k * a) = k * xs.foldl max a := by
  induction xs generalizing a with
  | nil => rfl
  | cons y ys ih =>
    have hmax : max (k * a) (k * y) = k * max a y := (mul_max_of_nonneg a y hk).symm
    simp only [List.map_cons, List.foldl_cons, hmax, ih]

theorem maxD_smul (k : ℚ) (hk : 0 ≤ k) (l : List ℚ) :
    maxD (l.map (fun x => k * x)) = k * maxD l := by
  cases l with
  | nil => simp [maxD]
  | cons x xs => simpa [maxD] using foldl_max_smul k hk xs x

theorem sum_map_mul (k : ℚ) (l : List ℚ) : (l.map (fun x => k * x)).sum = k * l.sum := by
  induction l with
  | nil => simp
  | cons x xs ih => simp [ih, mul_add]

theorem meanD_smul (k : ℚ) (l : List ℚ) : meanD (l.map (fun x => k * x)) = k * meanD l := by
  simp [meanD, sum_map_mul, mul_div_assoc]

theorem diffs_cons_cons (a b : ℚ) (l : List ℚ) :
    diffs (a :: b :: l) = (b - a) :: diffs (b :: l) := rfl

theorem diffs_map_affine (c k : ℚ) (ps : List ℚ) :
    diffs (ps.map (fun q => c + k * (q - c))) = (diffs ps).map (fun x => k * x) := by
  induction ps with
  | nil => rfl
  | cons p rest ih =>
    cases rest with
    | nil => rfl
    | cons q t =>
      simp only [List.map_cons] at ih ⊢
      rw [diffs_cons_cons, diffs_cons_cons]
      simp only [List.map_cons]
      rw [ih]
      congr 1
      ring


theorem absDiffs_scaleDiffs (k : ℚ) (hk : 0 ≤ k) (ps : List ℚ) :
    absDiffs (scaleDiffs k ps) = (absDiffs ps).map (fun x => k * x) := by
  cases ps with
  | nil => rfl
  | cons p rest =>
    show absDiffs ((p :: rest).map (fun q => p + k * (q - p))) = _
    have habs : (fun x : ℚ => |k * x|) = fun x => k * |x| :=
      funext fun x => by rw [abs_mul, abs_of_nonneg hk]
    simp only [absDiffs, diffs_map_affine, List.map_map, Function.comp_def, habs]

theorem length_scaleDiffs (k : ℚ) (ps : List ℚ) :
    (scaleDiffs k ps).length = ps.length := by
  cases ps <;> simp [scaleDiffs]

theorem roundEven_nonneg (q : ℚ) (h : 0 ≤ q) : 0 ≤ roundEven q := by
  have hf : 0 ≤ ⌊q⌋ := Int.floor_nonneg.mpr h
  unfold roundEven
  split_ifs <;> omega

theorem round2_nonneg (q : ℚ) (h : 0 ≤ q) : 0 ≤ round2 q := by
  unfold round2
  apply div_nonneg _ (by norm_num)
  exact_mod_cast roundEven_nonneg (q * 100) (by positivity)

theorem round2_zero : round2 0 = 0 := by
  norm_num [round2, roundEven]

theorem absDiffs_nonneg (ps : List ℚ) : ∀ x ∈ absDiffs ps, 0 ≤ x := by
  intro x hx
  obtain ⟨y, _, rfl⟩ := List.mem_map.mp hx
  exact abs_nonneg y

theorem diffs_all_zero (c : ℚ) (ps : List ℚ) (h : ∀ p ∈ ps, p = c) :
    ∀ y ∈ diffs ps, y = 0 := by
  induction ps with
  | nil => intro y hy; simp [diffs] at hy
  | cons p rest ih =>
    cases rest with
    | nil => intro y hy; simp [diffs] at hy
    | cons q t =>
      intro y hy
      rw [diffs_cons_cons] at hy
      rcases List.mem_cons.mp hy with h1 | h2
      · have hp : p = c := h p (List.mem_cons_self p (q :: t))
        have hq : q = c := h q (List.mem_cons_of_mem p (List.mem_cons_self q t))
        rw [h1, hp, hq]; ring
      · exact ih (fun x hx => h x (List.mem_cons_of_mem p hx)) y h2

theorem absDiffs_all_zero (c : ℚ) (ps : List ℚ) (h : ∀ p ∈ ps, p = c) :
    ∀ x ∈ absDiffs ps, x = 0 := by
  intro x hx
  obtain ⟨y, hy, rfl⟩ := List.mem_map.mp hx
  rw [diffs_all_zero c ps h y hy]
  exact abs_zero

theorem meanD_zero (l : List ℚ) (h : ∀ x ∈ l, x = 0) : meanD l = 0 := by
  rw [meanD, List.sum_eq_zero h, zero_div]



/-- C1: for every pressure series of length at least 2,
`compute_bitwalk_index` returns `round((maxDiff + meanDiff) / 2, 2)`,
where the differences are `d[i] = |pressure[i] - pressure[i-1]|`,
`maxDiff` is their maximum and `meanDiff` their mean. -/
theorem C1_index_formula (df : DataFrame) (h2 : 2 ≤ df.pressure.length) :
    (V03.compute_bitwalk_index df).2
      = some (round2 ((maxD (absDiffs df.pressure) + meanD (absDiffs df.pressure)) / 2)) :=
  compute_index_formula df h2

/-- Witness for C1 at the four-sample series of the spec example. -/
theorem C1_witness :
    2 ≤ ([1000, 5001/5, 4999/5, 1001] : List ℚ).length ∧
    (V03.compute_bitwalk_index ⟨[0, 1, 2, 3], [1000, 5001/5, 4999/5, 1001], none, none⟩).2
      = some (round2 ((maxD (absDiffs [1000, 5001/5, 4999/5, 1001])
          + meanD (absDiffs [1000, 5001/5, 4999/5, 1001])) / 2)) :=
  ⟨by norm_num, C1_index_formula ⟨[0, 1, 2, 3], [1000, 5001/5, 4999/5, 1001], none, none⟩ (by norm_num)⟩

/-- C2: the tier classification is total with no overlap or gap:
`index < 0.5` exactly characterizes STABLE, `0.5 <= index < 1.5`
exactly characterizes MODERATE, `index >= 1.5` exactly characterizes
HIGH; in particular `0.5` classifies as MODERATE and `1.5` as HIGH. -/
theorem C2_tier_total (x : ℚ) :
    (classifyTier x = Tier.STABLE ↔ x < 1/2) ∧
    (classifyTier x = Tier.MODERATE ↔ 1/2 ≤ x ∧ x < 3/2) ∧
    (classifyTier x = Tier.HIGH ↔ 3/2 ≤ x) ∧
    classifyTier (1/2) = Tier.MODERATE ∧
    classifyTier (3/2) = Tier.HIGH := by
  refine ⟨?_, ?_, ?_, by norm_num [classifyTier], by norm_num [classifyTier]⟩ <;>
    (unfold classifyTier; split_ifs <;> simp_all <;> linarith)

/-- C3 counterexample: the claim that the compute operation never
mutates its input fails on the code.  On a concrete two-sample
DataFrame the function returns a DataFrame different from its input,
because the source assigns the derived `diff` and `dpdt` columns into
the argument. -/
theorem C3_counterexample :
    (V03.compute_bitwalk_index ⟨[0, 1], [1000, 1001], none, none⟩).1
      ≠ (⟨[0, 1], [1000, 1001], none, none⟩ : DataFrame) := by
  intro h
  have h2 := congrArg DataFrame.diff h
  simp [V03.compute_bitwalk_index] at h2

/-- C3 amended: `compute_bitwalk_index` is a deterministic pure
function in this embedding (same input always yields the same output
definitionally); it leaves the `time` and `pressure` columns of its
input unchanged, but it does mutate the input DataFrame by assigning
the derived `diff` and `dpdt` columns. -/
theorem C3_amended (df : DataFrame) :
    (V03.compute_bitwalk_index df).1.time = df.time ∧
    (V03.compute_bitwalk_index df).1.pressure = df.pressure ∧
    (V03.compute_bitwalk_index df).1.diff = some (colAbs (pandasDiff df.pressure)) ∧
    (V03.compute_bitwalk_index df).1.dpdt = some (pandasDiff df.pressure) :=
  ⟨rfl, rfl, rfl, rfl⟩

/-- C4 counterexample: on a concrete single-sample series the code
does not fail with `InsufficientDataError` (the spec-worded calculator
`compute_spec` does): it performs the difference arithmetic, assigns
an all-`NaN` `diff` column, and returns the `NaN` index (`none`)
as a normal value. -/
theorem C4_counterexample :
    ([1000] : List ℚ).length < 2 ∧
    V03.compute_bitwalk_index ⟨[0], [1000], none, none⟩
      = (⟨[0], [1000], some [none], some [none]⟩, none) ∧
    compute_spec ⟨[0], [1000], none, none⟩ = Except.error ComputeError.insufficientData := by
  refine ⟨by norm_num, rfl, by norm_num [compute_spec]⟩

/-- C4 amended: for every series with fewer than 2 samples,
`compute_bitwalk_index` raises no error; it returns the `NaN` index
(`none`) because the `diff` column then has no non-`NaN` cell. -/
theorem C4_amended (df : DataFrame) (h : df.pressure.length < 2) :
    (V03.compute_bitwalk_index df).2 = none := by
  rcases hp : df.pressure with _ | ⟨p, _ | ⟨q, t⟩⟩
  · simp [V03.compute_bitwalk_index, hp, pandasDiff, colAbs, colMax, colMean, cells]
  · simp [V03.compute_bitwalk_index, hp, pandasDiff, colAbs, colMax, colMean, cells]
  · rw [hp] at h
    simp at h
    omega

/-- Witness for the amended C4 at a concrete single-sample series. -/
theorem C4_witness :
    ([1000] : List ℚ).length < 2 ∧
    (V03.compute_bitwalk_index ⟨[5], [1000], none, none⟩).2 = none :=
  ⟨by norm_num, C4_amended ⟨[5], [1000], none, none⟩ (by norm_num)⟩

/-- C5 counterexample: on a concrete series whose timestamps are out
of order the code does not fail with `UnorderedSeriesError` (the
spec-worded calculator `compute_spec` does): it performs the
arithmetic and returns a normal numeric index. -/
theorem C5_counterexample :
    nonDecreasing [1, 0] = false ∧
    compute_spec ⟨[1, 0], [1000, 1001], none, none⟩ = Except.error ComputeError.unorderedSeries ∧
    (V03.compute_bitwalk_index ⟨[1, 0], [1000, 1001], none, none⟩).2 = some 1 := by
  refine ⟨by norm_num [nonDecreasing], by norm_num [compute_spec, nonDecreasing], ?_⟩
  norm_num [V03.compute_bitwalk_index, colAbs, pandasDiff, colMax, colMean, cells,
    round2, roundEven, max_def, abs_of_nonneg, Int.fract]

/-- C5 amended: the code performs no timestamp validation at all: the
returned index is a function of the `pressure` column alone, so any
timestamp column (ordered or not) yields the same result. -/
theorem C5_amended (t t2 : List ℤ) (ps : List ℚ) (d1 d2 d3 d4 : Option (List (Option ℚ))) :
    (V03.compute_bitwalk_index ⟨t, ps, d1, d2⟩).2
      = (V03.compute_bitwalk_index ⟨t2, ps, d3, d4⟩).2 := rfl

/-- C6 counterexample: scaling every successive difference by the
positive constant `k = 1/3` does not scale the computed index by
exactly `1/3`: the original series `[0, 1]` has index `1`, the scaled
series `[0, 1/3]` has index `0.33`, and `0.33` is not `1/3` times `1`,
because the returned index is rounded to 2 decimal places. -/
theorem C6_counterexample :
    (0 : ℚ) < 1/3 ∧
    scaleDiffs (1/3) [0, 1] = [0, 1/3] ∧
    (V03.compute_bitwalk_index ⟨[0, 1], [0, 1], none, none⟩).2 = some 1 ∧
    (V03.compute_bitwalk_index ⟨[0, 1], [0, 1/3], none, none⟩).2 = some (33/100) ∧
    (33/100 : ℚ) ≠ 1/3 * 1 := by
  refine ⟨by norm_num, by norm_num [scaleDiffs], ?_, ?_, by norm_num⟩ <;>
    norm_num [V03.compute_bitwalk_index, colAbs, pandasDiff, colMax, colMean, cells,
      round2, roundEven, max_def, abs_of_nonneg, Int.fract]

/-- C6 amended: scaling every successive difference by a positive
constant `k` scales the pre-rounding index `(maxDiff + meanDiff) / 2`
by exactly `k`; the returned index is that scaled value rounded to 2
decimal places (which need not equal `k` times the original rounded
index). -/
theorem C6_amended (df : DataFrame) (k : ℚ) (hk : 0 < k) (h2 : 2 ≤ df.pressure.length) :
    (V03.compute_bitwalk_index { df with pressure := scaleDiffs k df.pressure }).2
      = some (round2 (k * ((maxD (absDiffs df.pressure) + meanD (absDiffs df.pressure)) / 2))) := by
  have hlen : 2 ≤ (scaleDiffs k df.pressure).length := by
    rw [length_scaleDiffs]; exact h2
  rw [compute_index_formula { df with pressure := scaleDiffs k df.pressure } hlen]
  congr 2
  show (maxD (absDiffs (scaleDiffs k df.pressure)) + meanD (absDiffs (scaleDiffs k df.pressure))) / 2 = _
  rw [absDiffs_scaleDiffs k hk.le, maxD_smul k hk.le, meanD_smul]
  ring

/-- Witness for the amended C6 at the series `[0, 2]` with `k = 2`. -/
theorem C6_witness :
    (0 : ℚ) < 2 ∧ 2 ≤ ([0, 2] : List ℚ).length ∧
    (V03.compute_bitwalk_index ⟨[0, 1], scaleDiffs 2 [0, 2], none, none⟩).2
      = some (round2 (2 * ((maxD (absDiffs [0, 2]) + meanD (absDiffs [0, 2])) / 2))) :=
  ⟨by norm_num, by norm_num, C6_amended ⟨[0, 1], [0, 2], none, none⟩ 2 (by norm_num) (by norm_num)⟩

/-- C7: for every series of length at least 2 with constant pressure,
the computed index is `0.0` and the tier classification of that index
is STABLE. -/
theorem C7_constant (df : DataFrame) (c : ℚ) (h2 : 2 ≤ df.pressure.length)
    (hc : ∀ p ∈ df.pressure, p = c) :
    (V03.compute_bitwalk_index df).2 = some 0 ∧ classifyTier 0 = Tier.STABLE := by
  constructor
  · rw [compute_index_formula df h2, maxD_zero _ (absDiffs_all_zero c _ hc),
      meanD_zero _ (absDiffs_all_zero c _ hc)]
    norm_num [round2_zero]
  · norm_num [classifyTier]

/-- Witness for C7 at the constant three-sample series `[7, 7, 7]`. -/
theorem C7_witness :
    2 ≤ ([7, 7, 7] : List ℚ).length ∧ (∀ p ∈ ([7, 7, 7] : List ℚ), p = 7) ∧
    ((V03.compute_bitwalk_index ⟨[0, 1, 2], [7, 7, 7], none, none⟩).2 = some 0 ∧
      classifyTier 0 = Tier.STABLE) :=
  ⟨by norm_num, by intro p hp; simp at hp; exact hp,
    C7_constant ⟨[0, 1, 2], [7, 7, 7], none, none⟩ 7 (by norm_num)
      (by intro p hp; simp at hp; exact hp)⟩

/-- C8: for every series of length at least 2, the computed index
exists and is non-negative. -/
theorem C8_nonneg (df : DataFrame) (h2 : 2 ≤ df.pressure.length) :
    ∃ q, (V03.compute_bitwalk_index df).2 = some q ∧ 0 ≤ q := by
  refine ⟨_, compute_index_formula df h2, ?_⟩
  apply round2_nonneg
  have hmax := maxD_nonneg _ (absDiffs_nonneg df.pressure)
  have hmean : 0 ≤ meanD (absDiffs df.pressure) := by
    rw [meanD]
    exact div_nonneg (List.sum_nonneg (absDiffs_nonneg df.pressure)) (Nat.cast_nonneg _)
  exact div_nonneg (add_nonneg hmax hmean) (by norm_num)

/-- Witness for C8 at the two-sample series `[3, 4]`. -/
theorem C8_witness :
    2 ≤ ([3, 4] : List ℚ).length ∧
    ∃ q, (V03.compute_bitwalk_index ⟨[0, 1], [3, 4], none, none⟩).2 = some q ∧ 0 ≤ q :=
  ⟨by norm_num, C8_nonneg ⟨[0, 1], [3, 4], none, none⟩ (by norm_num)⟩

/-- C9: for the concrete series `[1000.0, 1000.2, 999.8, 1001.0]` the
successive absolute differences are `[0.2, 0.4, 1.2]`, their maximum
is `1.2`, their mean is `0.6`, the computed index is `0.9`, and the
tier of that index is MODERATE. -/
theorem C9_example :
    absDiffs [1000, 5001/5, 4999/5, 1001] = [1/5, 2/5, 6/5] ∧
    maxD [1/5, 2/5, 6/5] = 6/5 ∧
    meanD [1/5, 2/5, 6/5] = 3/5 ∧
    (V03.compute_bitwalk_index ⟨[0, 1, 2, 3], [1000, 5001/5, 4999/5, 1001], none, none⟩).2
      = some (9/10) ∧
    classifyTier (9/10) = Tier.MODERATE := by
  refine ⟨by norm_num [absDiffs, diffs], by norm_num [maxD, max_def], by norm_num [meanD], ?_,
    by norm_num [classifyTier]⟩
  norm_num [V03.compute_bitwalk_index, colAbs, pandasDiff, colMax, colMean, cells,
    round2, roundEven, max_def, abs_of_nonneg, Int.fract]

/-- C10: the two source versions of `compute_bitwalk_index` agree on
every input DataFrame: they return the same index value and perform
the same additions of derived difference columns to the input. -/
theorem C10_versions_agree (df : DataFrame) :
    V03.compute_bitwalk_index df = V04.compute_bitwalk_index df := rfl
